import Mathlib

set_option maxRecDepth 8000

/-!
Verification of the study-pipeline orchestrator in `src/main.py`.

The embedding models the Python module faithfully:

* `PyVal` is the universe of Python values that flow through the handlers
  (the values produced by `json.loads`, plus `datetime` objects, which
  `json.dumps` cannot serialize).
* `process_study` embeds `EstudoOrchestrator.process_study` (lines 48-108).
  The awaited work of phase `i` (`await asyncio.sleep(2)` in the source,
  the only statement of a phase that can raise) is abstracted by an oracle
  `eff : Nat → Except String Unit`; the value of the `i`-th call to
  `datetime.now().isoformat()` inside one invocation is abstracted by
  `ts : Nat → String`.  Note that `study_data.get('id', ...)` on line 50 is
  executed BEFORE the `try:` on line 52, so a non-dict argument raises an
  AttributeError that escapes `process_study`; this is modelled by the
  `Except.error` result of the non-dict branch.
* `test_apis` embeds `EstudoOrchestrator.test_apis` (lines 110-160); the
  outcome of each provider's single HTTP attempt is an oracle
  `ProbeOutcome`, and the issued requests are returned alongside the
  result so that request count, URL and timeout are visible.
* `json_response` embeds `aiohttp.web.json_response`, whose default
  serializer `json.dumps` raises `TypeError` on values containing a
  `datetime`; `runHandler` embeds the aiohttp server loop, which turns an
  exception escaping a handler into a 500 response.
-/

/-- Python values handled by the module: the image of `json.loads` plus
`datetime.datetime` objects (constructor `datetime`), which are not JSON
serializable. -/
inductive PyVal where
  | str (s : String)
  | int (n : Int)
  | float (q : ℚ)
  | bool (b : Bool)
  | null
  | list (xs : List PyVal)
  | dict (kvs : List (String × PyVal))
  | datetime (t : Int)

/-- Key lookup in a Python dict value (`d[k]` / `d.get(k)` on dicts);
yields `none` on non-dict values or missing keys. -/
def PyVal.lookupKey : PyVal → String → Option PyVal
  | PyVal.dict kvs, k => kvs.lookup k
  | _, _ => Option.none

/-- The `processing_stats` dict of `EstudoOrchestrator.__init__`
(lines 29-33): two counters and the start instant (a datetime). -/
structure Stats where
  studies_completed : Nat
  studies_failed : Nat
  uptime_start : Int

/-- The fixed phase list of `process_study` (lines 56-61). -/
def pipeline_phases : List String :=
  ["Planejamento Estratégico", "Extração de Dados",
   "Geração de Conteúdo", "Polimento Final"]

/-- The record appended for a completed phase (lines 71-75); `ts i` is the
timestamp taken after phase `i`'s work. -/
def phaseRecord (ts : Nat → String) (i : Nat) (nm : String) : PyVal :=
  PyVal.dict [("phase", PyVal.str nm), ("status", PyVal.str "completed"),
    ("timestamp", PyVal.str (ts i))]

/-- The phase loop of `process_study` (lines 63-75), started at phase
index `i`.  Phase `i` first performs its awaited work (`eff i`); if that
raises, the loop stops at once and the exception propagates together with
the index `i` (which is also the index of the next `datetime.now()` call);
otherwise the completed-phase record is appended and the loop continues. -/
def runPhasesFrom (eff : Nat → Except String Unit) (ts : Nat → String) :
    Nat → List String → Except (String × Nat) (List PyVal)
  | _, [] => Except.ok []
  | i, nm :: rest =>
    match eff i with
    | Except.error e => Except.error (e, i)
    | Except.ok _ =>
      match runPhasesFrom eff ts (i + 1) rest with
      | Except.error p => Except.error p
      | Except.ok tl => Except.ok (phaseRecord ts i nm :: tl)

/-- The full phase loop over `pipeline_phases`. -/
def runPhases (eff : Nat → Except String Unit) (ts : Nat → String) :
    Except (String × Nat) (List PyVal) :=
  runPhasesFrom eff ts 0 pipeline_phases

/-- The `final_content` dict of the success result (lines 82-90): fixed
synthetic values, only the title comes from the request. -/
def final_content (title : PyVal) : PyVal :=
  PyVal.dict [("title", title), ("chapters", PyVal.int 8),
    ("words", PyVal.int 15000), ("images", PyVal.int 5),
    ("charts", PyVal.int 3), ("processing_time", PyVal.str "2.5 hours"),
    ("cost_usd", PyVal.float 7.5)]

/-- `EstudoOrchestrator.process_study` (lines 48-108).  The first
component is the returned value (`Except.error` models an exception
escaping the coroutine: this happens exactly when `study_data` is not a
dict, because line 50 runs before the `try:` of line 52); the second
component is the updated `processing_stats`.  On success the result dict
of lines 78-92 is built and `studies_completed` incremented (line 94); on
a pipeline exception the error dict of lines 103-108 is built — note it
has NO `phases` key — and `studies_failed` incremented (line 101). -/
def process_study (eff : Nat → Except String Unit) (ts : Nat → String)
    (stats : Stats) (study_data : PyVal) : Except String PyVal × Stats :=
  match study_data with
  | PyVal.dict kvs =>
    match runPhases eff ts with
    | Except.ok results =>
      (Except.ok (PyVal.dict
        [("study_id", (kvs.lookup "id").getD (PyVal.str "demo-001")),
         ("status", PyVal.str "completed"),
         ("phases", PyVal.list results),
         ("final_content", final_content
            ((kvs.lookup "title").getD (PyVal.str "Estudo Técnico Automatizado"))),
         ("completed_at", PyVal.str (ts pipeline_phases.length))]),
       Stats.mk (stats.studies_completed + 1) stats.studies_failed
         stats.uptime_start)
    | Except.error p =>
      (Except.ok (PyVal.dict
        [("study_id", (kvs.lookup "id").getD (PyVal.str "demo-001")),
         ("status", PyVal.str "error"),
         ("error", PyVal.str p.1),
         ("failed_at", PyVal.str (ts p.2))]),
       Stats.mk stats.studies_completed (stats.studies_failed + 1)
         stats.uptime_start)
  | _ => (Except.error "AttributeError: object has no attribute get", stats)

/-- The fallback request substituted by `process_study_endpoint` when the
body fails JSON parsing (lines 193-197). -/
def demo_request : PyVal :=
  PyVal.dict [("id", PyVal.str "demo-study"),
    ("title", PyVal.str "Estudo de Demonstração"),
    ("client", PyVal.str "Cliente Demo")]

/-- `process_study_endpoint` (lines 188-200) before JSON serialization:
`body` is the result of `await request.json()` (`none` when parsing
raised, in which case the bare `except:` substitutes `demo_request`). -/
def process_study_endpoint (eff : Nat → Except String Unit)
    (ts : Nat → String) (stats : Stats) (body : Option PyVal) :
    Except String PyVal × Stats :=
  process_study eff ts stats (body.getD demo_request)

mutual

/-- Whether `json.dumps` accepts a value: everything except `datetime`
objects (recursively). -/
def jsonSerializable : PyVal → Bool
  | PyVal.datetime _ => false
  | PyVal.list xs => jsonSerializableList xs
  | PyVal.dict kvs => jsonSerializableKVs kvs
  | _ => true

/-- Serializability of every element of a list. -/
def jsonSerializableList : List PyVal → Bool
  | [] => true
  | v :: vs => jsonSerializable v && jsonSerializableList vs

/-- Serializability of every value of a key-value list. -/
def jsonSerializableKVs : List (String × PyVal) → Bool
  | [] => true
  | kv :: kvs => jsonSerializable kv.2 && jsonSerializableKVs kvs

end

/-- An HTTP response: status code and (for JSON responses) the payload. -/
structure HttpResponse where
  httpStatus : Nat
  body : Option PyVal

/-- `aiohttp.web.json_response`: serializes with `json.dumps` (raising
`TypeError` on non-serializable data) and returns a 200 response. -/
def json_response (v : PyVal) : Except String HttpResponse :=
  if jsonSerializable v then Except.ok (HttpResponse.mk 200 (Option.some v))
  else Except.error "TypeError: Object of type datetime is not JSON serializable"

/-- The aiohttp server wrapper: an exception escaping a handler becomes a
500 Internal Server Error response. -/
def runHandler (r : Except String HttpResponse) : HttpResponse :=
  match r with
  | Except.ok resp => resp
  | Except.error _ => HttpResponse.mk 500 Option.none

/-- Serving a handler body that ends in `return web.json_response(result)`:
if the body raised, the exception reaches the server wrapper; otherwise
the result is serialized (which may itself raise). -/
def serveJson (r : Except String PyVal) : HttpResponse :=
  runHandler (match r with
    | Except.ok v => json_response v
    | Except.error e => Except.error e)

/-- The full `POST /process` route: endpoint body, then
`web.json_response(result)`, then the server wrapper. -/
def http_process (eff : Nat → Except String Unit) (ts : Nat → String)
    (stats : Stats) (body : Option PyVal) : HttpResponse × Stats :=
  (serveJson (process_study_endpoint eff ts stats body).1,
   (process_study_endpoint eff ts stats body).2)

/-- `health_check` (lines 167-177): builds the health payload — whose
`stats` entry is `processing_stats`, containing the datetime
`uptime_start` — and passes it to `web.json_response`.  `now` is the
current instant in seconds; `int(uptime.total_seconds())` is the integer
difference `now - uptime_start`. -/
def health_check (now : Int) (stats : Stats) (tstamp : String) :
    Except String HttpResponse :=
  json_response (PyVal.dict
    [("status", PyVal.str "healthy"),
     ("service", PyVal.str "Esteira de Produção Inteligente"),
     ("uptime_seconds", PyVal.int (now - stats.uptime_start)),
     ("stats", PyVal.dict
        [("studies_completed", PyVal.int (Int.ofNat stats.studies_completed)),
         ("studies_failed", PyVal.int (Int.ofNat stats.studies_failed)),
         ("uptime_start", PyVal.datetime stats.uptime_start)]),
     ("timestamp", PyVal.str tstamp)])

/-- The configuration read from the environment; only `supabase_url`
shapes an observable request of `test_apis` (the keys only feed request
headers, whose construction cannot fail). -/
structure Config where
  supabase_url : String

/-- Outcome of one provider's single HTTP attempt: an HTTP response with
a status code, or a raised transport failure/timeout. -/
inductive ProbeOutcome where
  | status (code : Nat)
  | exc (msg : String)

/-- One issued HTTP request, with its timeout. -/
structure HttpCall where
  httpMethod : String
  url : String
  timeout : Nat

/-- Classification of one probe (lines 133-138 resp. 153-158): status
exactly 200 maps to `ok`, any other status to `error` with the canned
response-time label; a raised exception is caught by the per-provider
`except` and recorded as `error` with `str(e)`. -/
def classifyProbe (label : String) (o : ProbeOutcome) : PyVal :=
  match o with
  | ProbeOutcome.status c =>
    PyVal.dict [("status", PyVal.str (if c == 200 then "ok" else "error")),
      ("response_time", PyVal.str label)]
  | ProbeOutcome.exc e =>
    PyVal.dict [("status", PyVal.str "error"), ("error", PyVal.str e)]

/-- `EstudoOrchestrator.test_apis` (lines 110-160): probes OpenAI then
Supabase, each in its own try/except, and returns the result dict
together with the list of requests issued (one per provider, timeout
30). -/
def test_apis (cfg : Config) (o s : ProbeOutcome) :
    PyVal × List HttpCall :=
  (PyVal.dict [("openai", classifyProbe "~1s" o),
     ("supabase", classifyProbe "~500ms" s)],
   [HttpCall.mk "POST" "https://api.openai.com/v1/chat/completions" 30,
    HttpCall.mk "GET" (cfg.supabase_url ++ "/rest/v1/") 30])

/-- `api_status` (lines 179-186): embeds the probe results in a JSON
payload. -/
def api_status (cfg : Config) (o s : ProbeOutcome) (tstamp : String) :
    Except String HttpResponse :=
  json_response (PyVal.dict [("apis", (test_apis cfg o s).1),
    ("timestamp", PyVal.str tstamp)])

/-- The full `GET /health` route (handler plus server wrapper). -/
def http_health (now : Int) (stats : Stats) (tstamp : String) :
    HttpResponse :=
  runHandler (health_check now stats tstamp)

/-- The full `GET /api-status` route (handler plus server wrapper). -/
def http_api_status (cfg : Config) (o s : ProbeOutcome) (tstamp : String) :
    HttpResponse :=
  runHandler (api_status cfg o s tstamp)

/-- Whether a Python value is a dict. -/
def isDict : PyVal → Bool
  | PyVal.dict _ => true
  | _ => false

/-- Whether the phase loop ran to completion. -/
def exOk : Except (String × Nat) (List PyVal) → Bool
  | Except.ok _ => true
  | Except.error _ => false

/-- Sequential execution of a list of `process_study` invocations, each
with its own request value and phase-work oracle, threading
`processing_stats` (the cooperative scheduler runs each counter update
atomically, so a sequence covers every interleaving of the stats
mutations). -/
def runJobs (ts : Nat → String) :
    List (PyVal × (Nat → Except String Unit)) → Stats → Stats
  | [], stats => stats
  | j :: rest, stats => runJobs ts rest (process_study j.2 ts stats j.1).2

/-- Number of invocations in a job list that return a completed result. -/
def countSucc (ts : Nat → String)
    (jobs : List (PyVal × (Nat → Except String Unit))) : Nat :=
  (jobs.filter (fun j => isDict j.1 && exOk (runPhases j.2 ts))).length

/-- Number of invocations in a job list that return an error result. -/
def countFail (ts : Nat → String)
    (jobs : List (PyVal × (Nat → Except String Unit))) : Nat :=
  (jobs.filter (fun j => isDict j.1 && !exOk (runPhases j.2 ts))).length

/-- Phase-work oracle that always succeeds (the behaviour of
`asyncio.sleep(2)` in normal operation). -/
def effOk : Nat → Except String Unit := fun _ => Except.ok ()

/-- Phase-work oracle failing at the very first phase. -/
def effBoom : Nat → Except String Unit := fun _ => Except.error "boom"

/-- Phase-work oracle failing at the third phase (index 2), so two phase
records have been accumulated when the exception is raised. -/
def effBoom2 : Nat → Except String Unit :=
  fun i => if i < 2 then Except.ok () else Except.error "boom"

/-- A concrete timestamp oracle. -/
def ts0 : Nat → String := fun _ => "t"

/-- A fresh stats registry. -/
def stats0 : Stats := Stats.mk 0 0 0

/-- A concrete configuration. -/
def cfg0 : Config := Config.mk "https://db.example.com"

/-- Claim C1: a POST /process request with body
`{"id": "s-1", "title": "T"}` returns a 200 JobResult with study_id
`s-1`, status `completed`, exactly the four declared phases in order —
Planejamento Estratégico, Extração de Dados, Geração de Conteúdo,
Polimento Final — each recorded as completed, and final_content with
chapters 8, words 15000 and cost_usd 7.50. -/
theorem c1_process_scenario (ts : Nat → String) (stats : Stats) :
    (http_process effOk ts stats (Option.some (PyVal.dict
        [("id", PyVal.str "s-1"), ("title", PyVal.str "T")]))).1 =
      HttpResponse.mk 200 (Option.some (PyVal.dict
        [("study_id", PyVal.str "s-1"),
         ("status", PyVal.str "completed"),
         ("phases", PyVal.list
            [phaseRecord ts 0 "Planejamento Estratégico",
             phaseRecord ts 1 "Extração de Dados",
             phaseRecord ts 2 "Geração de Conteúdo",
             phaseRecord ts 3 "Polimento Final"]),
         ("final_content", final_content (PyVal.str "T")),
         ("completed_at", PyVal.str (ts 4))])) ∧
    (∀ i nm, PyVal.lookupKey (phaseRecord ts i nm) "status" =
       Option.some (PyVal.str "completed")) ∧
    PyVal.lookupKey (final_content (PyVal.str "T")) "chapters" =
      Option.some (PyVal.int 8) ∧
    PyVal.lookupKey (final_content (PyVal.str "T")) "words" =
      Option.some (PyVal.int 15000) ∧
    PyVal.lookupKey (final_content (PyVal.str "T")) "cost_usd" =
      Option.some (PyVal.float 7.5) :=
  ⟨rfl, fun _ _ => rfl, rfl, rfl, rfl⟩

/-- Unfolding lemma: on a dict request whose pipeline run succeeds,
`process_study` returns the success result and bumps the completed
counter. -/
theorem process_study_dict_ok (eff : Nat → Except String Unit)
    (ts : Nat → String) (stats : Stats) (kvs : List (String × PyVal))
    (rs : List PyVal) (h : runPhases eff ts = Except.ok rs) :
    process_study eff ts stats (PyVal.dict kvs) =
      (Except.ok (PyVal.dict
        [("study_id", (kvs.lookup "id").getD (PyVal.str "demo-001")),
         ("status", PyVal.str "completed"),
         ("phases", PyVal.list rs),
         ("final_content", final_content
            ((kvs.lookup "title").getD (PyVal.str "Estudo Técnico Automatizado"))),
         ("completed_at", PyVal.str (ts pipeline_phases.length))]),
       Stats.mk (stats.studies_completed + 1) stats.studies_failed
         stats.uptime_start) := by
  unfold process_study
  rw [h]

/-- Unfolding lemma: on a dict request whose pipeline run raises,
`process_study` returns the error result — which has no `phases` key —
and bumps the failed counter. -/
theorem process_study_dict_err (eff : Nat → Except String Unit)
    (ts : Nat → String) (stats : Stats) (kvs : List (String × PyVal))
    (e : String) (i : Nat) (h : runPhases eff ts = Except.error (e, i)) :
    process_study eff ts stats (PyVal.dict kvs) =
      (Except.ok (PyVal.dict
        [("study_id", (kvs.lookup "id").getD (PyVal.str "demo-001")),
         ("status", PyVal.str "error"),
         ("error", PyVal.str e),
         ("failed_at", PyVal.str (ts i))]),
       Stats.mk stats.studies_completed (stats.studies_failed + 1)
         stats.uptime_start) := by
  unfold process_study
  rw [h]

/-- Every record list produced by a successful phase-loop run is JSON
serializable (each record is a dict of strings). -/
theorem serializableList_runPhasesFrom (l : List String) :
    ∀ (eff : Nat → Except String Unit) (ts : Nat → String) (i : Nat)
      (rs : List PyVal), runPhasesFrom eff ts i l = Except.ok rs →
      jsonSerializableList rs = true := by
  induction l with
  | nil =>
    intro eff ts i rs h
    simp only [runPhasesFrom, Except.ok.injEq] at h
    subst h
    rfl
  | cons nm rest ih =>
    intro eff ts i rs h
    simp only [runPhasesFrom] at h
    cases he : eff i with
    | error e => rw [he] at h; simp at h
    | ok u =>
      rw [he] at h
      cases hr : runPhasesFrom eff ts (i + 1) rest with
      | error p => rw [hr] at h; simp at h
      | ok tl =>
        rw [hr] at h
        simp only [Except.ok.injEq] at h
        subst h
        have htl := ih eff ts (i + 1) tl hr
        simp [jsonSerializableList, jsonSerializable, phaseRecord,
          jsonSerializableKVs, htl]

/-- Serving a successfully built, serializable result gives a 200 JSON
response. -/
theorem serveJson_ok (v : PyVal) (h : jsonSerializable v = true) :
    serveJson (Except.ok v) = HttpResponse.mk 200 (Option.some v) := by
  show runHandler (json_response v) = _
  unfold json_response
  rw [h]
  rfl

/-- An exception escaping the handler body becomes a 500 response. -/
theorem serveJson_err (e : String) :
    serveJson (Except.error e) = HttpResponse.mk 500 Option.none := rfl

/-- `process_study` on the fallback demo request, successful pipeline. -/
theorem process_demo_ok (eff : Nat → Except String Unit)
    (ts : Nat → String) (stats : Stats) (rs : List PyVal)
    (h : runPhases eff ts = Except.ok rs) :
    process_study eff ts stats demo_request =
      (Except.ok (PyVal.dict
        [("study_id", PyVal.str "demo-study"),
         ("status", PyVal.str "completed"),
         ("phases", PyVal.list rs),
         ("final_content", final_content (PyVal.str "Estudo de Demonstração")),
         ("completed_at", PyVal.str (ts 4))]),
       Stats.mk (stats.studies_completed + 1) stats.studies_failed
         stats.uptime_start) := by
  unfold demo_request process_study
  rw [h]
  rfl

/-- `process_study` on the fallback demo request, failing pipeline. -/
theorem process_demo_err (eff : Nat → Except String Unit)
    (ts : Nat → String) (stats : Stats) (e : String) (i : Nat)
    (h : runPhases eff ts = Except.error (e, i)) :
    process_study eff ts stats demo_request =
      (Except.ok (PyVal.dict
        [("study_id", PyVal.str "demo-study"),
         ("status", PyVal.str "error"),
         ("error", PyVal.str e),
         ("failed_at", PyVal.str (ts i))]),
       Stats.mk stats.studies_completed (stats.studies_failed + 1)
         stats.uptime_start) := by
  unfold demo_request process_study
  rw [h]
  rfl

/-- Claim C5: a POST /process request whose body is empty or not valid
JSON is never rejected: the fixed demo request is substituted,
`process_study` is run on it, and the route answers 200 with a JobResult
(status completed or error), never a 4xx or 5xx. -/
theorem c5_invalid_body_fallback (eff : Nat → Except String Unit)
    (ts : Nat → String) (stats : Stats) :
    ∃ v, (process_study eff ts stats demo_request).1 = Except.ok v ∧
      (http_process eff ts stats Option.none).1 =
        HttpResponse.mk 200 (Option.some v) ∧
      (PyVal.lookupKey v "status" = Option.some (PyVal.str "completed") ∨
       PyVal.lookupKey v "status" = Option.some (PyVal.str "error")) := by
  cases h : runPhases eff ts with
  | ok rs =>
    have hs := serializableList_runPhasesFrom pipeline_phases eff ts 0 rs h
    have hp := process_demo_ok eff ts stats rs h
    have hser : jsonSerializable (PyVal.dict
        [("study_id", PyVal.str "demo-study"),
         ("status", PyVal.str "completed"),
         ("phases", PyVal.list rs),
         ("final_content", final_content (PyVal.str "Estudo de Demonstração")),
         ("completed_at", PyVal.str (ts 4))]) = true := by
      simp only [jsonSerializable, jsonSerializableKVs, jsonSerializableList,
        final_content]
      rw [hs]
      rfl
    refine ⟨PyVal.dict
        [("study_id", PyVal.str "demo-study"),
         ("status", PyVal.str "completed"),
         ("phases", PyVal.list rs),
         ("final_content", final_content (PyVal.str "Estudo de Demonstração")),
         ("completed_at", PyVal.str (ts 4))], ?_, ?_, Or.inl ?_⟩
    · rw [hp]
    · show serveJson (process_study eff ts stats demo_request).1 = _
      rw [hp]
      exact serveJson_ok _ hser
    · rfl
  | error p =>
    have hp := process_demo_err eff ts stats p.1 p.2 (by rw [← h])
    refine ⟨PyVal.dict
        [("study_id", PyVal.str "demo-study"),
         ("status", PyVal.str "error"),
         ("error", PyVal.str p.1),
         ("failed_at", PyVal.str (ts p.2))], ?_, ?_, Or.inr ?_⟩
    · rw [hp]
    · show serveJson (process_study eff ts stats demo_request).1 = _
      rw [hp]
      exact serveJson_ok _ rfl
    · rfl

/-- Claim C2, counterexample: `process_study` DOES raise outward for a
non-dict argument (e.g. a JSON string body): `study_data.get` on line 50
runs before the `try:`, so the AttributeError escapes and neither counter
is touched — refuting the claim for arbitrary input values. -/
theorem c2_counterexample_raises :
    (process_study effOk ts0 stats0 (PyVal.str "not a dict")).1 =
      Except.error "AttributeError: object has no attribute get" := rfl

/-- Claim C2, amended: for every dict (mapping) input, `process_study`
never raises outward; any failure raised during the phase pipeline is
captured and converted into a JobResult with status error carrying the
exception's message, and `studies_failed` is incremented by one. -/
theorem c2_amended_never_raises_on_dict (kvs : List (String × PyVal))
    (eff : Nat → Except String Unit) (ts : Nat → String) (stats : Stats) :
    (∃ v, (process_study eff ts stats (PyVal.dict kvs)).1 = Except.ok v) ∧
    (∀ e i, runPhases eff ts = Except.error (e, i) →
      (process_study eff ts stats (PyVal.dict kvs)).1 = Except.ok (PyVal.dict
        [("study_id", (kvs.lookup "id").getD (PyVal.str "demo-001")),
         ("status", PyVal.str "error"),
         ("error", PyVal.str e),
         ("failed_at", PyVal.str (ts i))]) ∧
      (process_study eff ts stats (PyVal.dict kvs)).2.studies_failed =
        stats.studies_failed + 1) := by
  constructor
  · cases h : runPhases eff ts with
    | ok rs =>
      refine ⟨PyVal.dict
        [("study_id", (kvs.lookup "id").getD (PyVal.str "demo-001")),
         ("status", PyVal.str "completed"),
         ("phases", PyVal.list rs),
         ("final_content", final_content
            ((kvs.lookup "title").getD (PyVal.str "Estudo Técnico Automatizado"))),
         ("completed_at", PyVal.str (ts pipeline_phases.length))], ?_⟩
      rw [process_study_dict_ok eff ts stats kvs rs h]
    | error p =>
      refine ⟨PyVal.dict
        [("study_id", (kvs.lookup "id").getD (PyVal.str "demo-001")),
         ("status", PyVal.str "error"),
         ("error", PyVal.str p.1),
         ("failed_at", PyVal.str (ts p.2))], ?_⟩
      rw [process_study_dict_err eff ts stats kvs p.1 p.2 h]
  · intro e i h
    rw [process_study_dict_err eff ts stats kvs e i h]
    exact ⟨rfl, rfl⟩

/-- Witness for the amended C2 at a concrete failing pipeline. -/
theorem c2_amended_witness :
    runPhases effBoom ts0 = Except.error ("boom", 0) ∧
    ((process_study effBoom ts0 stats0
        (PyVal.dict [("id", PyVal.str "s-9")])).1 = Except.ok (PyVal.dict
        [("study_id", PyVal.str "s-9"),
         ("status", PyVal.str "error"),
         ("error", PyVal.str "boom"),
         ("failed_at", PyVal.str "t")]) ∧
     (process_study effBoom ts0 stats0
        (PyVal.dict [("id", PyVal.str "s-9")])).2.studies_failed = 1) :=
  ⟨rfl, (c2_amended_never_raises_on_dict [("id", PyVal.str "s-9")]
    effBoom ts0 stats0).2 "boom" 0 rfl⟩

/-- Claim C3, counterexample: a pipeline failure at the third phase has
accumulated two completed-phase records, yet the error JobResult carries
NO `phases` field at all (the partial list is discarded), so the error
result's phases field is not a prefix of the phase sequence — it is
absent. -/
theorem c3_counterexample_no_phases_field :
    runPhases effBoom2 ts0 = Except.error ("boom", 2) ∧
    (process_study effBoom2 ts0 stats0
        (PyVal.dict [("id", PyVal.str "s-1")])).1 = Except.ok (PyVal.dict
        [("study_id", PyVal.str "s-1"),
         ("status", PyVal.str "error"),
         ("error", PyVal.str "boom"),
         ("failed_at", PyVal.str "t")]) ∧
    PyVal.lookupKey (PyVal.dict
        [("study_id", PyVal.str "s-1"),
         ("status", PyVal.str "error"),
         ("error", PyVal.str "boom"),
         ("failed_at", PyVal.str "t")]) "phases" = Option.none :=
  ⟨rfl, rfl, rfl⟩

/-- Claim C3, amended: when a phase raises, the error JobResult contains
no `phases` field at all (the accumulated partial records are discarded),
and the returned JobResult has status error if and only if an exception
occurred during pipeline execution. -/
theorem c3_amended_error_iff_no_partial (kvs : List (String × PyVal))
    (eff : Nat → Except String Unit) (ts : Nat → String) (stats : Stats) :
    ∃ v, (process_study eff ts stats (PyVal.dict kvs)).1 = Except.ok v ∧
      (PyVal.lookupKey v "status" = Option.some (PyVal.str "error") ↔
        ∃ p, runPhases eff ts = Except.error p) ∧
      ((∃ p, runPhases eff ts = Except.error p) →
        PyVal.lookupKey v "phases" = Option.none) := by
  cases h : runPhases eff ts with
  | ok rs =>
    refine ⟨PyVal.dict
        [("study_id", (kvs.lookup "id").getD (PyVal.str "demo-001")),
         ("status", PyVal.str "completed"),
         ("phases", PyVal.list rs),
         ("final_content", final_content
            ((kvs.lookup "title").getD (PyVal.str "Estudo Técnico Automatizado"))),
         ("completed_at", PyVal.str (ts pipeline_phases.length))], ?_, ?_, ?_⟩
    · rw [process_study_dict_ok eff ts stats kvs rs h]
    · constructor
      · intro hc
        have h2 : Option.some (PyVal.str "completed") =
            Option.some (PyVal.str "error") := hc
        have h3 : ("completed" : String) = "error" :=
          PyVal.str.inj (Option.some.inj h2)
        exact absurd h3 (by decide)
      · rintro ⟨p, hp⟩
        exact Except.noConfusion hp
    · rintro ⟨p, hp⟩
      exact Except.noConfusion hp
  | error p =>
    refine ⟨PyVal.dict
        [("study_id", (kvs.lookup "id").getD (PyVal.str "demo-001")),
         ("status", PyVal.str "error"),
         ("error", PyVal.str p.1),
         ("failed_at", PyVal.str (ts p.2))], ?_, ?_, ?_⟩
    · rw [process_study_dict_err eff ts stats kvs p.1 p.2 h]
    · exact ⟨fun _ => ⟨p, rfl⟩, fun _ => rfl⟩
    · intro _
      rfl

/-- Witness for the amended C3 at a concrete failing pipeline. -/
theorem c3_amended_witness :
    (∃ p, runPhases effBoom ts0 = Except.error p) ∧
    (∃ v, (process_study effBoom ts0 stats0 (PyVal.dict [])).1 =
        Except.ok v ∧
      PyVal.lookupKey v "status" = Option.some (PyVal.str "error") ∧
      PyVal.lookupKey v "phases" = Option.none) := by
  obtain ⟨v, h1, h2, h3⟩ :=
    c3_amended_error_iff_no_partial [] effBoom ts0 stats0
  exact ⟨⟨("boom", 0), rfl⟩, v, h1, h2.mpr ⟨("boom", 0), rfl⟩,
    h3 ⟨("boom", 0), rfl⟩⟩

/-- The stats effect of one `process_study` invocation: a dict request
bumps exactly one counter (completed on success, failed on failure); a
non-dict request raises before the `try:` and leaves the stats
untouched. -/
theorem process_study_stats (eff : Nat → Except String Unit)
    (ts : Nat → String) (stats : Stats) (d : PyVal) :
    (process_study eff ts stats d).2 =
      if isDict d then
        (if exOk (runPhases eff ts) then
          Stats.mk (stats.studies_completed + 1) stats.studies_failed
            stats.uptime_start
         else
          Stats.mk stats.studies_completed (stats.studies_failed + 1)
            stats.uptime_start)
      else stats := by
  cases d with
  | str s => rfl
  | int n => rfl
  | float q => rfl
  | bool b => rfl
  | null => rfl
  | list xs => rfl
  | datetime t => rfl
  | dict kvs =>
    cases h : runPhases eff ts with
    | ok rs =>
      rw [process_study_dict_ok eff ts stats kvs rs h]
      simp [isDict, exOk, h]
    | error p =>
      rw [process_study_dict_err eff ts stats kvs p.1 p.2 h]
      simp [isDict, exOk, h]

/-- Counter bookkeeping of a job sequence, from an arbitrary starting
registry. -/
theorem runJobs_counts (ts : Nat → String) :
    ∀ (jobs : List (PyVal × (Nat → Except String Unit))) (stats : Stats),
      (runJobs ts jobs stats).studies_completed =
        stats.studies_completed + countSucc ts jobs ∧
      (runJobs ts jobs stats).studies_failed =
        stats.studies_failed + countFail ts jobs := by
  intro jobs
  induction jobs with
  | nil =>
    intro stats
    simp [runJobs, countSucc, countFail]
  | cons j rest ih =>
    intro stats
    obtain ⟨d, eff⟩ := j
    have h2 := process_study_stats eff ts stats d
    have ihc := (ih ((process_study eff ts stats d).2)).1
    have ihf := (ih ((process_study eff ts stats d).2)).2
    constructor
    · show (runJobs ts rest ((process_study eff ts stats d).2)).studies_completed = _
      rw [ihc, h2]
      simp only [countSucc, List.filter_cons]
      by_cases hd : isDict d
      all_goals by_cases hok : exOk (runPhases eff ts)
      all_goals simp [hd, hok]
      all_goals omega
    · show (runJobs ts rest ((process_study eff ts stats d).2)).studies_failed = _
      rw [ihf, h2]
      simp only [countFail, List.filter_cons]
      by_cases hd : isDict d
      all_goals by_cases hok : exOk (runPhases eff ts)
      all_goals simp [hd, hok]
      all_goals omega

/-- Claim C4, counterexample: an invocation of `process_study` on a
non-dict value (a JSON string) raises before any counter update, so it
mutates NEITHER counter — refuting the claim that every single invocation
mutates exactly one of the two counters by +1. -/
theorem c4_counterexample_no_mutation :
    (process_study effOk ts0 stats0 (PyVal.str "oops")).2.studies_completed =
      stats0.studies_completed ∧
    (process_study effOk ts0 stats0 (PyVal.str "oops")).2.studies_failed =
      stats0.studies_failed :=
  ⟨rfl, rfl⟩

/-- Claim C4, amended: starting from a fresh registry, after any sequence
of `process_study` invocations containing N successful and M failed ones
(and possibly invocations that raise on non-dict input), the completed
counter equals N and the failed counter equals M; every invocation that
returns a JobResult (i.e. on a dict input) mutates exactly one of the two
counters by exactly +1, while a raising invocation mutates neither. -/
theorem c4_amended_counters (ts : Nat → String) (u : Int)
    (jobs : List (PyVal × (Nat → Except String Unit))) :
    (runJobs ts jobs (Stats.mk 0 0 u)).studies_completed =
      countSucc ts jobs ∧
    (runJobs ts jobs (Stats.mk 0 0 u)).studies_failed =
      countFail ts jobs ∧
    (∀ (eff : Nat → Except String Unit) (kvs : List (String × PyVal))
       (stats : Stats),
      (exOk (runPhases eff ts) = true →
        (process_study eff ts stats (PyVal.dict kvs)).2 =
          Stats.mk (stats.studies_completed + 1) stats.studies_failed
            stats.uptime_start) ∧
      (exOk (runPhases eff ts) = false →
        (process_study eff ts stats (PyVal.dict kvs)).2 =
          Stats.mk stats.studies_completed (stats.studies_failed + 1)
            stats.uptime_start)) ∧
    (∀ (eff : Nat → Except String Unit) (stats : Stats) (s : String),
      (process_study eff ts stats (PyVal.str s)).2 = stats) := by
  refine ⟨?_, ?_, ?_, ?_⟩
  · have h := (runJobs_counts ts jobs (Stats.mk 0 0 u)).1
    simpa using h
  · have h := (runJobs_counts ts jobs (Stats.mk 0 0 u)).2
    simpa using h
  · intro eff kvs stats
    have h2 := process_study_stats eff ts stats (PyVal.dict kvs)
    constructor
    · intro hok
      rw [h2]
      simp [isDict, hok]
    · intro hok
      rw [h2]
      simp [isDict, hok]
  · intro eff stats s
    rfl

/-- Witness for the amended C4: a concrete two-job sequence with one
success and one failure, plus a concrete single-counter mutation. -/
theorem c4_amended_witness :
    exOk (runPhases effOk ts0) = true ∧
    (process_study effOk ts0 stats0
        (PyVal.dict [("id", PyVal.str "a")])).2 = Stats.mk 1 0 0 := by
  have h := ((c4_amended_counters ts0 0 []).2.2.1 effOk
    [("id", PyVal.str "a")] stats0).1 rfl
  exact ⟨rfl, h⟩

/-- The success result for the demo fallback request is JSON serializable
once its phase-record list is. -/
theorem serializable_demo_success (ts : Nat → String) (rs : List PyVal)
    (hs : jsonSerializableList rs = true) :
    jsonSerializable (PyVal.dict
      [("study_id", PyVal.str "demo-study"),
       ("status", PyVal.str "completed"),
       ("phases", PyVal.list rs),
       ("final_content", final_content (PyVal.str "Estudo de Demonstração")),
       ("completed_at", PyVal.str (ts 4))]) = true := by
  simp only [jsonSerializable, jsonSerializableKVs, jsonSerializableList,
    final_content]
  rw [hs]
  rfl

/-- Claim C6, counterexample: the body `"not json"` IS valid JSON (a JSON
string), so `request.json()` succeeds and hands the non-dict value to
`process_study`, whose `study_data.get` raises before the `try:`; the
route answers 500, not 200 with a completed demo JobResult. -/
theorem c6_counterexample_quoted_string_body :
    (http_process effOk ts0 stats0 (Option.some (PyVal.str "not json"))).1 =
      HttpResponse.mk 500 Option.none := rfl

/-- Claim C6, amended: a POST /process body that is NOT valid JSON (so
parsing raises and the demo request is substituted) yields a 200 response
whose JobResult has the fixed default id `demo-study` (different from
`s-1`), status completed, and the default demo title Estudo de
Demonstração; whereas the body consisting of the quoted JSON string
`"not json"` parses successfully to a non-dict value and makes the route
answer 500. -/
theorem c6_amended_invalid_body (ts : Nat → String) (stats : Stats) :
    (http_process effOk ts stats Option.none).1.httpStatus = 200 ∧
    (∃ v fc, (http_process effOk ts stats Option.none).1.body =
        Option.some v ∧
      PyVal.lookupKey v "study_id" = Option.some (PyVal.str "demo-study") ∧
      PyVal.lookupKey v "status" = Option.some (PyVal.str "completed") ∧
      PyVal.lookupKey v "final_content" = Option.some fc ∧
      PyVal.lookupKey fc "title" =
        Option.some (PyVal.str "Estudo de Demonstração")) ∧
    (http_process effOk ts stats (Option.some (PyVal.str "not json"))).1 =
      HttpResponse.mk 500 Option.none :=
  ⟨rfl,
   ⟨PyVal.dict
      [("study_id", PyVal.str "demo-study"),
       ("status", PyVal.str "completed"),
       ("phases", PyVal.list
          [phaseRecord ts 0 "Planejamento Estratégico",
           phaseRecord ts 1 "Extração de Dados",
           phaseRecord ts 2 "Geração de Conteúdo",
           phaseRecord ts 3 "Polimento Final"]),
       ("final_content", final_content (PyVal.str "Estudo de Demonstração")),
       ("completed_at", PyVal.str (ts 4))],
    final_content (PyVal.str "Estudo de Demonstração"),
    rfl, rfl, rfl, rfl, rfl⟩,
   rfl⟩

/-- Claim C7: the health payload embeds `processing_stats`, which contains
the datetime `uptime_start`; `json.dumps` cannot serialize it, so EVERY
GET /health request makes the handler raise TypeError and the route
answer 500 — never the claimed 200 JSON body. -/
theorem c7_health_always_500 (now : Int) (stats : Stats) (tstamp : String) :
    jsonSerializable (PyVal.datetime stats.uptime_start) = false ∧
    http_health now stats tstamp = HttpResponse.mk 500 Option.none :=
  ⟨rfl, rfl⟩

/-- Claim C8: provider probes are independent: each provider's entry is a
function of its own outcome alone; a raised probe is recorded as an error
entry carrying the exception text while the other provider's entry is
unaffected; and /api-status always answers 200. -/
theorem c8_probe_isolation (cfg : Config) (o s : ProbeOutcome)
    (tstamp : String) :
    PyVal.lookupKey (test_apis cfg o s).1 "openai" =
      Option.some (classifyProbe "~1s" o) ∧
    PyVal.lookupKey (test_apis cfg o s).1 "supabase" =
      Option.some (classifyProbe "~500ms" s) ∧
    (∀ e, o = ProbeOutcome.exc e →
      classifyProbe "~1s" o =
        PyVal.dict [("status", PyVal.str "error"), ("error", PyVal.str e)]) ∧
    (∀ e, s = ProbeOutcome.exc e →
      classifyProbe "~500ms" s =
        PyVal.dict [("status", PyVal.str "error"), ("error", PyVal.str e)]) ∧
    (http_api_status cfg o s tstamp).httpStatus = 200 := by
  refine ⟨rfl, rfl, ?_, ?_, ?_⟩
  · intro e he
    subst he
    rfl
  · intro e he
    subst he
    rfl
  · cases o <;> cases s <;> rfl

/-- Witness for C8 with a concrete raising probe. -/
theorem c8_probe_isolation_witness :
    ((ProbeOutcome.exc "timeout" : ProbeOutcome) = ProbeOutcome.exc "timeout") ∧
    classifyProbe "~1s" (ProbeOutcome.exc "timeout") =
      PyVal.dict [("status", PyVal.str "error"),
        ("error", PyVal.str "timeout")] ∧
    PyVal.lookupKey (test_apis cfg0 (ProbeOutcome.exc "timeout")
        (ProbeOutcome.status 200)).1 "supabase" =
      Option.some (classifyProbe "~500ms" (ProbeOutcome.status 200)) ∧
    (http_api_status cfg0 (ProbeOutcome.exc "timeout")
        (ProbeOutcome.status 200) "z").httpStatus = 200 := by
  have h := c8_probe_isolation cfg0 (ProbeOutcome.exc "timeout")
    (ProbeOutcome.status 200) "z"
  exact ⟨rfl, h.2.2.1 "timeout" rfl, h.2.1, h.2.2.2.2⟩

/-- Claim C9, counterexample: the code classifies as ok only the exact
status 200, so the HTTP success status 204 (No Content) is classified as
error — refuting the claim that any HTTP success status maps to ok. -/
theorem c9_counterexample_success_status_204 :
    PyVal.lookupKey (test_apis cfg0 (ProbeOutcome.status 204)
        (ProbeOutcome.status 200)).1 "openai" =
      Option.some (PyVal.dict [("status", PyVal.str "error"),
        ("response_time", PyVal.str "~1s")]) := rfl

/-- Claim C9, amended: the probe issues exactly one bounded-timeout
(30 time units) HTTP request to each of exactly two providers (the OpenAI
chat-completion API via POST and the Supabase data backend via GET), and
classifies each response: status exactly 200 maps to ok, any other status
(including other 2xx success statuses) and any raised transport
failure/timeout map to error. -/
theorem c9_amended_probe_requests (cfg : Config) (o s : ProbeOutcome) :
    (test_apis cfg o s).2 =
      [HttpCall.mk "POST" "https://api.openai.com/v1/chat/completions" 30,
       HttpCall.mk "GET" (cfg.supabase_url ++ "/rest/v1/") 30] ∧
    (test_apis cfg o s).2.length = 2 ∧
    (∀ c ∈ (test_apis cfg o s).2, c.timeout = 30) ∧
    PyVal.lookupKey (test_apis cfg o s).1 "openai" =
      Option.some (classifyProbe "~1s" o) ∧
    (∀ n, classifyProbe "~1s" (ProbeOutcome.status n) =
      PyVal.dict [("status", PyVal.str (if n == 200 then "ok" else "error")),
        ("response_time", PyVal.str "~1s")]) ∧
    (∀ e, classifyProbe "~1s" (ProbeOutcome.exc e) =
      PyVal.dict [("status", PyVal.str "error"), ("error", PyVal.str e)]) := by
  refine ⟨rfl, rfl, ?_, rfl, fun n => rfl, fun e => rfl⟩
  intro c hc
  simp only [test_apis, List.mem_cons, List.not_mem_nil, or_false] at hc
  rcases hc with h | h <;> subst h <;> rfl

/-- Witness for the amended C9 at the concrete configuration. -/
theorem c9_amended_witness :
    (HttpCall.mk "POST" "https://api.openai.com/v1/chat/completions" 30) ∈
      (test_apis cfg0 (ProbeOutcome.status 200)
        (ProbeOutcome.status 200)).2 ∧
    (HttpCall.mk "POST" "https://api.openai.com/v1/chat/completions"
      30).timeout = 30 := by
  have h := c9_amended_probe_requests cfg0 (ProbeOutcome.status 200)
    (ProbeOutcome.status 200)
  exact ⟨List.mem_cons_self _ _, h.2.2.1 _ (List.mem_cons_self _ _)⟩

/-- Claim C10: every malformed-body POST /process gets the same fixed
fallback id `demo-study` (a constant, not freshly generated), and a
parsed dict body lacking an id key gets the fixed constant `demo-001`. -/
theorem c10_fixed_fallback_ids (eff : Nat → Except String Unit)
    (ts : Nat → String) (stats : Stats) :
    (∃ v, (http_process eff ts stats Option.none).1.body = Option.some v ∧
      PyVal.lookupKey v "study_id" = Option.some (PyVal.str "demo-study")) ∧
    (∀ kvs : List (String × PyVal), kvs.lookup "id" = Option.none →
      ∃ w, (process_study eff ts stats (PyVal.dict kvs)).1 = Except.ok w ∧
        PyVal.lookupKey w "study_id" =
          Option.some (PyVal.str "demo-001")) := by
  constructor
  · cases h : runPhases eff ts with
    | ok rs =>
      have hp := process_demo_ok eff ts stats rs h
      have hser := serializable_demo_success ts rs
        (serializableList_runPhasesFrom pipeline_phases eff ts 0 rs h)
      refine ⟨PyVal.dict
        [("study_id", PyVal.str "demo-study"),
         ("status", PyVal.str "completed"),
         ("phases", PyVal.list rs),
         ("final_content", final_content (PyVal.str "Estudo de Demonstração")),
         ("completed_at", PyVal.str (ts 4))], ?_, rfl⟩
      show (serveJson (process_study eff ts stats demo_request).1).body = _
      rw [hp, serveJson_ok _ hser]
    | error p =>
      have hp := process_demo_err eff ts stats p.1 p.2 h
      refine ⟨PyVal.dict
        [("study_id", PyVal.str "demo-study"),
         ("status", PyVal.str "error"),
         ("error", PyVal.str p.1),
         ("failed_at", PyVal.str (ts p.2))], ?_, rfl⟩
      show (serveJson (process_study eff ts stats demo_request).1).body = _
      rw [hp, serveJson_ok (PyVal.dict
        [("study_id", PyVal.str "demo-study"),
         ("status", PyVal.str "error"),
         ("error", PyVal.str p.1),
         ("failed_at", PyVal.str (ts p.2))]) rfl]
  · intro kvs hko
    cases h : runPhases eff ts with
    | ok rs =>
      refine ⟨PyVal.dict
        [("study_id", (kvs.lookup "id").getD (PyVal.str "demo-001")),
         ("status", PyVal.str "completed"),
         ("phases", PyVal.list rs),
         ("final_content", final_content
            ((kvs.lookup "title").getD (PyVal.str "Estudo Técnico Automatizado"))),
         ("completed_at", PyVal.str (ts pipeline_phases.length))], ?_, ?_⟩
      · rw [process_study_dict_ok eff ts stats kvs rs h]
      · show Option.some ((kvs.lookup "id").getD (PyVal.str "demo-001")) = _
        rw [hko]
        rfl
    | error p =>
      refine ⟨PyVal.dict
        [("study_id", (kvs.lookup "id").getD (PyVal.str "demo-001")),
         ("status", PyVal.str "error"),
         ("error", PyVal.str p.1),
         ("failed_at", PyVal.str (ts p.2))], ?_, ?_⟩
      · rw [process_study_dict_err eff ts stats kvs p.1 p.2 h]
      · show Option.some ((kvs.lookup "id").getD (PyVal.str "demo-001")) = _
        rw [hko]
        rfl

/-- Witness for C10 at a concrete dict body without an id key. -/
theorem c10_fixed_fallback_ids_witness :
    (([("title", PyVal.str "X")] : List (String × PyVal)).lookup "id" =
      Option.none) ∧
    (∃ w, (process_study effOk ts0 stats0
        (PyVal.dict [("title", PyVal.str "X")])).1 = Except.ok w ∧
      PyVal.lookupKey w "study_id" = Option.some (PyVal.str "demo-001")) :=
  ⟨rfl, (c10_fixed_fallback_ids effOk ts0 stats0).2
    [("title", PyVal.str "X")] rfl⟩
